import Mathlib

/-!
Verification of `robot/running/builder/builders.py`: the `TestSuiteBuilder`
and `SuiteStructureParser` classes that build an executable suite tree from
parsed file/directory structures, reconciling per-file execution modes
(`rpa`) and post-processing the finished tree.

External collaborators (per-format content parsers, the file-system walker,
`os.path.normpath`, the file system itself) are modelled as parameters.
Execution mode is the Python attribute `rpa : bool | None`, embedded as
`Option Bool`.  Data errors are embedded as `Except String`.
-/

namespace Builders

/-- A `TestDefaults` settings scope: constructed either fresh (no parent)
or as a child derived from a parent scope, as in `TestDefaults(parent)`. -/
inductive TestDefaults where
  | mk (parent : Option TestDefaults)

/-- The `TestSuite` tree: name, source path (nullable), execution mode
(`rpa : bool | None`), directly contained tests/tasks (by name), and child
suites in order. -/
inductive TestSuite where
  | mk (name : String) (source : Option String) (rpa : Option Bool)
       (tests : List String) (suites : List TestSuite)

def TestSuite.name : TestSuite → String
  | .mk n _ _ _ _ => n

def TestSuite.source : TestSuite → Option String
  | .mk _ s _ _ _ => s

def TestSuite.rpa : TestSuite → Option Bool
  | .mk _ _ r _ _ => r

def TestSuite.tests : TestSuite → List String
  | .mk _ _ _ t _ => t

def TestSuite.suites : TestSuite → List TestSuite
  | .mk _ _ _ _ s => s

/-- Assignment `suite.rpa = value`. -/
def TestSuite.setRpa : TestSuite → Option Bool → TestSuite
  | .mk n src _ t s, r => .mk n src r t s

/-- The `suite.config(name='', source=None)` call used for multi-source roots. -/
def TestSuite.anonymize : TestSuite → TestSuite
  | .mk _ _ r t s => .mk "" none r t s

/-- Appending a child: `parent.suites.append(child)`. -/
def TestSuite.addChild : TestSuite → TestSuite → TestSuite
  | .mk n src r t s, c => .mk n src r t (s ++ [c])

mutual
/-- Modelled from the spec: `TestSuite.has_tests` is outside the excerpt;
per the spec a suite must "contain at least one test/task", i.e. directly
or in a descendant suite. -/
def has_tests : TestSuite → Bool
  | .mk _ _ _ tests suites => !tests.isEmpty || any_has_tests suites
def any_has_tests : List TestSuite → Bool
  | [] => false
  | c :: rest => has_tests c || any_has_tests rest
end

mutual
/-- Whether some suite named `n` occurs anywhere in the tree. -/
def contains_named (n : String) : TestSuite → Bool
  | .mk name _ _ _ suites => name == n || any_contains_named n suites
def any_contains_named (n : String) : List TestSuite → Bool
  | [] => false
  | c :: rest => contains_named n c || any_contains_named n rest
end

/-- The external `SuiteStructure`: a file node (source, extension) or a
directory node (source, optional init file, extension, multi-source flag,
children in traversal order). -/
inductive SuiteStructure where
  | file (source : String) (extension : Option String)
  | dir (source : Option String) (init_file : Option String)
        (extension : Option String) (is_multi_source : Bool)
        (children : List SuiteStructure)

/-- The parser capability contract: `parse_suite_file(source, defaults)` and
`parse_init_file(source, defaults)`, each returning a suite or failing with
a data error. -/
structure ParserCap where
  parse_suite_file : String → TestDefaults → Except String TestSuite
  parse_init_file : Option String → TestDefaults → Except String TestSuite

/-- The parser registry view used by the visitor: `self.parsers[extension]`. -/
def ParserMap : Type := Option String → ParserCap

/-- State of a `SuiteStructureParser` during one `parse` call: the
reconciler's aggregate mode `rpa`, whether the caller forced it
(`rpa is not None` at construction), the root suite once established, and
the stack of (in-progress directory suite, derived defaults) frames with
the top frame first. -/
structure ParserState where
  rpa : Option Bool
  rpa_given : Bool
  suite : Option TestSuite
  stack : List (TestSuite × TestDefaults)

/-- `self._stack[-1][-1] if self._stack else None`. -/
def parentDefaults (st : ParserState) : Option TestDefaults :=
  (st.stack.head?).map Prod.snd

/-- `Option` fallback mirroring a Python `x if x is not None else y` chain. -/
def opt_or (a b : Option Bool) : Option Bool :=
  match a with
  | some x => some x
  | none => b

/-- The conflict error raised by `_validate_execution_mode` when a file
declares mode `m` disagreeing with the established mode. -/
def conflict_message (m : Bool) : String :=
  let this := if m then "tasks" else "tests"
  let that := if m then "tests" else "tasks"
  "Conflicting execution modes. File has " ++ this ++
    " but files parsed earlier have " ++ that ++
    ". Fix headers or use '--rpa' or '--norpa' options to set the " ++
    "execution mode explicitly."

/-- `SuiteStructureParser._validate_execution_mode(suite)`: returns the new
reconciler mode and the (possibly overwritten) suite, or the conflict
error. -/
def validate_execution_mode (rpa : Option Bool) (rpa_given : Bool)
    (suite : TestSuite) : Except String (Option Bool × TestSuite) :=
  if rpa_given then
    .ok (rpa, suite.setRpa rpa)
  else
    match suite.rpa, rpa with
    | none, _ => .ok (rpa, suite)
    | some m, none => .ok (some m, suite)
    | some m, some r =>
      if r == m then .ok (rpa, suite)
      else .error (conflict_message m)

/-- `SuiteStructureParser._build_suite_file(structure)`: parse the file with
the parent defaults (or a fresh scope), validate/reconcile its execution
mode, and wrap any data error with the source path. -/
def build_suite_file (P : ParserMap) (pd : Option TestDefaults) (src : String)
    (ext : Option String) (rpa : Option Bool) (rpa_given : Bool) :
    Except String (TestSuite × Option Bool) :=
  let defaults := pd.getD (TestDefaults.mk none)
  match (P ext).parse_suite_file src defaults with
  | .error e => .error ("Parsing '" ++ src ++ "' failed: " ++ e)
  | .ok su =>
    match validate_execution_mode rpa rpa_given su with
    | .error e => .error ("Parsing '" ++ src ++ "' failed: " ++ e)
    | .ok (rpa2, su2) => .ok (su2, rpa2)

/-- Display of `structure.init_file or structure.source` in error messages
(Python renders `None` as the string `None`). -/
def source_display (s : Option String) : String :=
  match s with
  | some x => x
  | none => "None"

/-- `structure.init_file or structure.source`. -/
def init_or_source (init_file src : Option String) : Option String :=
  match init_file with
  | some i => some i
  | none => src

/-- `SuiteStructureParser._build_suite_directory(structure)`: parse the init
file (or directory) with a freshly derived defaults scope, anonymize the
suite when the directory represents multiple source roots, and wrap any data
error with the source path. -/
def build_suite_directory (P : ParserMap) (pd : Option TestDefaults)
    (src : Option String) (init_file : Option String) (ext : Option String)
    (is_multi_source : Bool) : Except String (TestSuite × TestDefaults) :=
  let source := init_or_source init_file src
  let defaults := TestDefaults.mk pd
  match (P ext).parse_init_file source defaults with
  | .error e => .error ("Parsing '" ++ source_display source ++ "' failed: " ++ e)
  | .ok su =>
    let su := if is_multi_source then su.anonymize else su
    .ok (su, defaults)

/-- `visit_file`: build the file suite, then establish it as the tree root
when no directory frame exists, else append it to the top frame's suite. -/
def visit_file (P : ParserMap) (src : String) (ext : Option String)
    (st : ParserState) : Except String ParserState :=
  match build_suite_file P (parentDefaults st) src ext st.rpa st.rpa_given with
  | .error e => .error e
  | .ok (su, rpa2) =>
    match st.stack with
    | [] => .ok { st with suite := some su, rpa := rpa2 }
    | (t, d) :: rest => .ok { st with stack := (t.addChild su, d) :: rest, rpa := rpa2 }

/-- `start_directory`: build the directory suite with a derived defaults
scope and push the new frame. -/
def start_directory (P : ParserMap) (src : Option String)
    (init_file : Option String) (ext : Option String) (is_multi_source : Bool)
    (st : ParserState) : Except String ParserState :=
  match build_suite_directory P (parentDefaults st) src init_file ext is_multi_source with
  | .error e => .error e
  | .ok (su, d) => .ok { st with stack := (su, d) :: st.stack }

/-- The mode inference of `end_directory` on the popped suite: if its
execution mode is still unset and it has children, adopt the first child's
mode; otherwise leave it unchanged. -/
def finalize_dir_suite (su : TestSuite) : TestSuite :=
  match su.rpa, su.suites with
  | none, c :: _ => su.setRpa c.rpa
  | _, _ => su

/-- `end_directory`: pop the top frame, infer the popped suite's mode, and
attach the finished suite to the enclosing frame (it becomes the tree root
when the stack empties).  In the Python source the suite object is attached
by reference when the frame is pushed; attaching the finished value on pop
is the equivalent functional formulation.  An empty stack never occurs in a
traversal (pops are balanced with pushes); the state is returned unchanged
in that unreachable case. -/
def end_directory (st : ParserState) : ParserState :=
  match st.stack with
  | [] => st
  | (su, _) :: rest =>
    let su2 := finalize_dir_suite su
    match rest with
    | [] => { st with stack := [], suite := some su2 }
    | (t, d) :: rest2 => { st with stack := (t.addChild su2, d) :: rest2 }

mutual
/-- `structure.visit(self)`: depth-first traversal driving the visitor
callbacks (file, directory-start, directory-end). -/
def visitStructure (P : ParserMap) : SuiteStructure → ParserState →
    Except String ParserState
  | .file src ext, st => visit_file P src ext st
  | .dir src init_file ext multi children, st =>
    match start_directory P src init_file ext multi st with
    | .error e => .error e
    | .ok st1 =>
      match visitList P children st1 with
      | .error e => .error e
      | .ok st2 => .ok (end_directory st2)
def visitList (P : ParserMap) : List SuiteStructure → ParserState →
    Except String ParserState
  | [], st => .ok st
  | c :: rest, st =>
    match visitStructure P c st with
    | .error e => .error e
    | .ok st1 => visitList P rest st1
end

/-- The initial state of `SuiteStructureParser(parsers, rpa)`. -/
def initState (rpa0 : Option Bool) : ParserState :=
  { rpa := rpa0, rpa_given := rpa0.isSome, suite := none, stack := [] }

/-- `SuiteStructureParser.parse(structure)`: run the traversal, then assign
the reconciler's aggregate mode to the root suite (`self.suite.rpa =
self.rpa`) and return it.  The root is `none` only for traversals the
external walker never produces. -/
def parse (P : ParserMap) (rpa0 : Option Bool) (s : SuiteStructure) :
    Except String (Option TestSuite) :=
  match visitStructure P s (initState rpa0) with
  | .error e => .error e
  | .ok st => .ok (st.suite.map (fun root => root.setRpa st.rpa))

/-- Modelled from the spec: `robot.utils.seq2str` is outside the excerpt;
the spec only requires every non-existent path to be listed together in a
single aggregated error, so the paths are quoted and joined. -/
def seq2str : List String → String
  | [] => ""
  | [x] => "'" ++ x ++ "'"
  | [x, y] => "'" ++ x ++ "' and '" ++ y ++ "'"
  | x :: y :: z :: rest => "'" ++ x ++ "', " ++ seq2str (y :: z :: rest)

/-- `TestSuiteBuilder._normalize_paths(paths)`: fail on an empty sequence,
normalize each path (the composition of `os.path.normpath` and
`Path.absolute`, both external, is the parameter `norm`), and fail with one
aggregated error listing every path that does not exist. -/
def normalize_paths (norm : String → String) (path_exists : String → Bool)
    (paths : List String) : Except String (List String) :=
  if paths.isEmpty then
    .error "One or more source paths required."
  else
    let ps := paths.map norm
    let non_existing := ps.filter (fun p => !path_exists p)
    if non_existing.isEmpty then
      .ok ps
    else
      .error ("Parsing " ++ seq2str non_existing ++
        " failed: File or directory to execute does not exist.")

mutual
/-- `TestSuiteBuilder._validate_not_empty(suite, multi_source)`: with
multiple sources validate each direct child (with `multi_source` false),
else require the suite itself to have tests. -/
def validate_not_empty : TestSuite → Bool → Except String Unit
  | .mk _ _ _ _ suites, true => validate_children suites
  | su, false =>
    if has_tests su then .ok ()
    else .error ("Suite '" ++ su.name ++ "' contains no tests or tasks.")
def validate_children : List TestSuite → Except String Unit
  | [] => .ok ()
  | c :: rest =>
    match validate_not_empty c false with
    | .error e => .error e
    | .ok () => validate_children rest
end

mutual
/-- Modelled from the spec: `TestSuite.remove_empty_suites` is outside the
excerpt; per the spec it removes any subtree containing zero tests/tasks
and zero non-empty descendant subtrees, except that with
`preserve_direct_children` the direct children of the root are kept even if
empty while pruning still applies recursively below. -/
def remove_empty_suites (preserve_direct_children : Bool) : TestSuite → TestSuite
  | .mk n src rpa tests suites =>
    let pruned := prune_children suites
    let kept := if preserve_direct_children then pruned
                else pruned.filter has_tests
    .mk n src rpa tests kept
def prune_children : List TestSuite → List TestSuite
  | [] => []
  | c :: rest => remove_empty_suites false c :: prune_children rest
end

mutual
/-- The shape `remove_empty_suites` establishes: when the flag is unset all
direct children contain tests, and every child is recursively pruned. -/
def is_pruned (preserve_direct_children : Bool) : TestSuite → Bool
  | .mk _ _ _ _ suites =>
    (preserve_direct_children || suites.all has_tests) && all_pruned suites
def all_pruned : List TestSuite → Bool
  | [] => true
  | c :: rest => is_pruned false c && all_pruned rest
end

/-- The `TestSuiteBuilder` configuration fields that `build` consults after
parsing: suite-name filters, leniency about empty suites, and the explicit
execution-mode override. -/
structure BuilderConfig where
  included_suites : List String
  allow_empty_suite : Bool
  rpa : Option Bool

/-- `TestSuiteBuilder.build(*paths)`: validate the paths, parse the
externally built structure into a suite tree, run the non-empty validation
unless suite filters were given or empty suites are allowed, and prune
empty suites (preserving direct children when several paths were given).
The structure the external `SuiteStructureBuilder` produces for the paths
is a parameter; a traversal yielding no root suite (which that builder
never produces) is reported as an internal error. -/
def build (cfg : BuilderConfig) (P : ParserMap) (norm : String → String)
    (path_exists : String → Bool) (paths : List String)
    (struc : SuiteStructure) : Except String TestSuite :=
  match normalize_paths norm path_exists paths with
  | .error e => .error e
  | .ok ps =>
    match parse P cfg.rpa struc with
    | .error e => .error e
    | .ok none => .error "Internal error: traversal produced no suite."
    | .ok (some suite) =>
      let multi := decide (ps.length > 1)
      match (if cfg.included_suites.isEmpty && !cfg.allow_empty_suite
             then validate_not_empty suite multi
             else .ok ()) with
      | .error e => .error e
      | .ok () => .ok (remove_empty_suites multi suite)

mutual
/-- The first execution mode declared by a file suite in traversal order,
computed against the same defaults scopes the traversal derives: files see
the parent scope (or a fresh one), directories derive a child scope for
their children.  Files whose parsing fails declare nothing (the traversal
aborts there anyway). -/
def first_declared_mode (P : ParserMap) (pd : Option TestDefaults) :
    SuiteStructure → Option Bool
  | .file src ext =>
    match (P ext).parse_suite_file src (pd.getD (TestDefaults.mk none)) with
    | .ok su => su.rpa
    | .error _ => none
  | .dir _ _ _ _ children =>
    first_declared_modes P (some (TestDefaults.mk pd)) children
def first_declared_modes (P : ParserMap) (pd : Option TestDefaults) :
    List SuiteStructure → Option Bool
  | [] => none
  | c :: rest =>
    opt_or (first_declared_mode P pd c) (first_declared_modes P pd rest)
end

/-- A caller-supplied custom parser object: its type name, the extensions
it claims, and whether it satisfies the `CustomParser` capability shape. -/
structure ParserObj where
  name : String
  extensions : List String
  valid : Bool

/-- A registered custom parser wrapping the supplied object. -/
structure CustomParser where
  obj : ParserObj

/-- Modelled from the spec: the `CustomParser` wrapper class is outside the
excerpt; constructing it fails with a `TypeError` when the supplied object
does not satisfy the required capability shape. -/
def custom_parser_init (p : ParserObj) : Except String CustomParser :=
  if p.valid then .ok ⟨p⟩
  else .error ("'" ++ p.name ++ "' does not have mandatory 'parse' method.")

/-- One `custom_parsers[ext] = custom_parser` dictionary assignment per
claimed extension. -/
def reg_update (d : String → Option CustomParser) (keys : List String)
    (v : CustomParser) : String → Option CustomParser :=
  match keys with
  | [] => d
  | k :: ks => reg_update (fun x => if x = k then some v else d x) ks v

/-- The loop body of `TestSuiteBuilder._get_custom_parsers` over the
remaining parser objects, threading the registry built so far. -/
def get_custom_parsers_from (objs : List ParserObj)
    (acc : String → Option CustomParser) :
    Except String (String → Option CustomParser) :=
  match objs with
  | [] => .ok acc
  | p :: rest =>
    match custom_parser_init p with
    | .error e => .error ("Importing parser '" ++ p.name ++ "' failed: " ++ e)
    | .ok cp => get_custom_parsers_from rest (reg_update acc p.extensions cp)

/-- `TestSuiteBuilder._get_custom_parsers(parsers)` restricted to parsers
supplied as already-instantiated objects (loading parsers from names or
paths goes through the external `Importer` collaborator and yields such an
object). -/
def get_custom_parsers (objs : List ParserObj) :
    Except String (String → Option CustomParser) :=
  get_custom_parsers_from objs (fun _ => none)

/-- The last parser in the supplied sequence claiming a given extension. -/
def last_claiming (ext : String) : List ParserObj → Option ParserObj
  | [] => none
  | p :: rest =>
    match last_claiming ext rest with
    | some q => some q
    | none => if ext ∈ p.extensions then some p else none

/-- A concrete parser environment: file `a` parses to a suite `A` with one
test, any other file parses to an empty suite `B`; init files parse to an
empty directory suite named after the source. -/
def demoP : ParserMap := fun _ =>
  { parse_suite_file := fun src _ =>
      if src = "a" then .ok (.mk "A" (some "a") none ["t1"] [])
      else .ok (.mk "B" (some "b") none [] []),
    parse_init_file := fun osrc _ =>
      .ok (.mk (osrc.getD "") osrc none [] []) }

/-- A concrete structure: directory `R` containing file `a` and a
subdirectory `D` whose only file `b` yields no tests. -/
def demoStructure : SuiteStructure :=
  .dir (some "R") none none false
    [ .file "a" (some "robot"),
      .dir (some "D") none none false [ .file "b" (some "robot") ] ]

/-- A parser environment whose files declare conflicting execution modes:
file `a` declares tests, any other file declares tasks. -/
def conflictP : ParserMap := fun _ =>
  { parse_suite_file := fun src _ =>
      if src = "a" then .ok (.mk "A" (some "a") (some false) ["t1"] [])
      else .ok (.mk "B" (some "b") (some true) ["t2"] []),
    parse_init_file := fun osrc _ =>
      .ok (.mk (osrc.getD "") osrc none [] []) }

/-- Concrete custom parser objects: two valid parsers both claiming
extension `xyz`, and an invalid one. -/
def demoP1 : ParserObj := ⟨"P1", ["xyz", "abc"], true⟩

def demoP2 : ParserObj := ⟨"P2", ["xyz"], true⟩

def demoBad : ParserObj := ⟨"SomeClass", ["q"], false⟩

/-- The registry built from `[demoP1, demoP2]`. -/
def demoRegistry : String → Option CustomParser :=
  match get_custom_parsers [demoP1, demoP2] with
  | .ok reg => reg
  | .error _ => fun _ => none

/-- The suite tree `parse demoP none demoStructure` yields: root `R` with a
non-empty child `A` and an empty subdirectory `D` containing `B`. -/
def demoRoot : TestSuite :=
  .mk "R" (some "R") none []
    [ .mk "A" (some "a") none ["t1"] [],
      .mk "D" (some "D") none [] [ .mk "B" (some "b") none [] [] ] ]

theorem setRpa_rpa (su : TestSuite) (r : Option Bool) : (su.setRpa r).rpa = r := by
  cases su
  rfl

/-- C1: with no caller-supplied override, a parsed file suite whose declared
execution mode differs from the already-established running mode makes the
build fail with the conflict error naming the file's mode and the
earlier-established mode and instructing how to resolve it (the error is
surfaced wrapped with the file's source path, as every error raised while
building a file suite is). -/
theorem conflicting_modes_fail (P : ParserMap) (st : ParserState) (src : String)
    (ext : Option String) (su : TestSuite) (r m : Bool)
    (hg : st.rpa_given = false) (hr : st.rpa = some r)
    (hp : (P ext).parse_suite_file src
      ((parentDefaults st).getD (TestDefaults.mk none)) = .ok su)
    (hm : su.rpa = some m) (hne : m ≠ r) :
    visit_file P src ext st =
      .error ("Parsing '" ++ src ++ "' failed: " ++ conflict_message m) := by
  have hbeq : (r == m) = false := by
    cases r <;> cases m <;> simp_all
  simp [visit_file, build_suite_file, validate_execution_mode, hg, hr, hm, hp, hbeq]

/-- Witness for C1: a state that has established tests mode meeting a file
declaring tasks mode. -/
theorem conflicting_modes_fail_witness :
    visit_file conflictP "b" none
      { rpa := some false, rpa_given := false, suite := none, stack := [] } =
      .error ("Parsing 'b' failed: " ++ conflict_message true) :=
  conflicting_modes_fail conflictP
    { rpa := some false, rpa_given := false, suite := none, stack := [] }
    "b" none (.mk "B" (some "b") (some true) ["t2"] []) false true
    rfl rfl rfl rfl (by decide)

/-- C3: path validation fails on an empty input sequence; when some
normalized paths do not exist it fails once with an aggregated error
listing all of them; when all exist it returns the normalized paths in
input order. -/
theorem path_validation_spec (norm : String → String) (path_exists : String → Bool) :
    (normalize_paths norm path_exists [] = .error "One or more source paths required.") ∧
    (∀ paths : List String, paths ≠ [] →
      ((paths.map norm).filter (fun p => !path_exists p)) = [] →
      normalize_paths norm path_exists paths = .ok (paths.map norm)) ∧
    (∀ paths : List String, paths ≠ [] →
      ((paths.map norm).filter (fun p => !path_exists p)) ≠ [] →
      normalize_paths norm path_exists paths =
        .error ("Parsing " ++ seq2str ((paths.map norm).filter (fun p => !path_exists p)) ++
          " failed: File or directory to execute does not exist.")) := by
  refine ⟨rfl, ?_, ?_⟩
  · intro paths hne hall
    simp [normalize_paths, hall, hne]
  · intro paths hne hsome
    simp [normalize_paths, hne, hsome]

/-- Witness for C3: two of three paths do not exist and are reported
together in one error. -/
theorem path_validation_spec_witness :
    ["a", "x", "y"] ≠ ([] : List String) ∧
    normalize_paths (fun s => s) (fun p => !(p == "x" || p == "y")) ["a", "x", "y"] =
      .error "Parsing 'x' and 'y' failed: File or directory to execute does not exist." :=
  ⟨by decide,
    (path_validation_spec (fun s => s) (fun p => !(p == "x" || p == "y"))).2.2
      ["a", "x", "y"] (by decide) (by decide)⟩

/-- C4: a data error raised while parsing a file or a directory init file is
re-raised with the offending source path prefixed. -/
theorem data_errors_wrapped :
    (∀ (P : ParserMap) (pd : Option TestDefaults) (src : String)
       (ext : Option String) (rpa : Option Bool) (g : Bool) (e : String),
      (P ext).parse_suite_file src (pd.getD (TestDefaults.mk none)) = .error e →
      build_suite_file P pd src ext rpa g =
        .error ("Parsing '" ++ src ++ "' failed: " ++ e)) ∧
    (∀ (P : ParserMap) (pd : Option TestDefaults) (src init_file ext : Option String)
       (multi : Bool) (e : String),
      (P ext).parse_init_file (init_or_source init_file src) (TestDefaults.mk pd) =
        .error e →
      build_suite_directory P pd src init_file ext multi =
        .error ("Parsing '" ++ source_display (init_or_source init_file src) ++
          "' failed: " ++ e)) := by
  constructor
  · intro P pd src ext rpa g e h
    simp [build_suite_file, h]
  · intro P pd src init_file ext multi e h
    simp [build_suite_directory, h]

/-- Witness for C4: a file parser failure and an init-file parser failure,
each wrapped with its source. -/
theorem data_errors_wrapped_witness :
    build_suite_file
      (fun _ => { parse_suite_file := fun _ _ => .error "boom",
                  parse_init_file := fun _ _ => .error "crash" })
      none "f.robot" none none false =
      .error "Parsing 'f.robot' failed: boom" ∧
    build_suite_directory
      (fun _ => { parse_suite_file := fun _ _ => .error "boom",
                  parse_init_file := fun _ _ => .error "crash" })
      none (some "d") none none false =
      .error "Parsing 'd' failed: crash" :=
  ⟨data_errors_wrapped.1
      (fun _ => { parse_suite_file := fun _ _ => .error "boom",
                  parse_init_file := fun _ _ => .error "crash" })
      none "f.robot" none none false "boom" rfl,
    data_errors_wrapped.2
      (fun _ => { parse_suite_file := fun _ _ => .error "boom",
                  parse_init_file := fun _ _ => .error "crash" })
      none (some "d") none none false "crash" rfl⟩

/-- C5: on exit-directory the top frame is always popped (the finished suite
being attached to the enclosing frame or becoming the root), and the popped
suite's execution mode is set to the first child's mode exactly when it is
still unset and at least one child exists; otherwise the suite is left
unchanged. -/
theorem end_directory_spec (st : ParserState) (su : TestSuite) (d : TestDefaults)
    (rest : List (TestSuite × TestDefaults)) (h : st.stack = (su, d) :: rest) :
    ((end_directory st).stack.map Prod.snd = rest.map Prod.snd) ∧
    ((end_directory st).rpa = st.rpa) ∧
    ((end_directory st).rpa_given = st.rpa_given) ∧
    (∀ c cs, su.rpa = none → su.suites = c :: cs →
      finalize_dir_suite su = su.setRpa c.rpa) ∧
    ((su.rpa ≠ none ∨ su.suites = []) → finalize_dir_suite su = su) ∧
    ((end_directory st).suite =
      (match rest with
       | [] => some (finalize_dir_suite su)
       | _ :: _ => st.suite)) ∧
    ((end_directory st).stack =
      (match rest with
       | [] => ([] : List (TestSuite × TestDefaults))
       | (t, d2) :: rest2 => (t.addChild (finalize_dir_suite su), d2) :: rest2)) := by
  have hset : ∀ c cs, su.rpa = none → su.suites = c :: cs →
      finalize_dir_suite su = su.setRpa c.rpa := by
    intro c cs h1 h2
    simp [finalize_dir_suite, h1, h2]
  have hkeep : (su.rpa ≠ none ∨ su.suites = []) → finalize_dir_suite su = su := by
    intro h'
    cases hrpa : su.rpa with
    | some b => simp [finalize_dir_suite, hrpa]
    | none =>
      rcases h' with h' | h'
      · exact absurd hrpa h'
      · cases su
        simp_all [finalize_dir_suite, TestSuite.rpa, TestSuite.suites, TestSuite.setRpa]
  cases rest with
  | nil => exact ⟨by simp [end_directory, h], by simp [end_directory, h],
      by simp [end_directory, h], hset, hkeep, by simp [end_directory, h],
      by simp [end_directory, h]⟩
  | cons top rest2 =>
    obtain ⟨t, d2⟩ := top
    exact ⟨by simp [end_directory, h], by simp [end_directory, h],
      by simp [end_directory, h], hset, hkeep, by simp [end_directory, h],
      by simp [end_directory, h]⟩

/-- Witness for C5: popping a directory whose mode is unset and whose only
child declares tasks mode adopts that mode and makes the suite the root. -/
theorem end_directory_spec_witness :
    (Builders.end_directory
      { rpa := none, rpa_given := false, suite := none,
        stack := [(.mk "D" (some "D") none []
          [ .mk "B" (some "b") (some true) [] [] ], TestDefaults.mk none)] }).suite =
      some ((TestSuite.mk "D" (some "D") none []
        [ .mk "B" (some "b") (some true) [] [] ]).setRpa (some true)) := by
  have h := end_directory_spec
    { rpa := none, rpa_given := false, suite := none,
      stack := [(.mk "D" (some "D") none []
        [ .mk "B" (some "b") (some true) [] [] ], TestDefaults.mk none)] }
    (.mk "D" (some "D") none [] [ .mk "B" (some "b") (some true) [] [] ])
    (TestDefaults.mk none) [] rfl
  rw [h.2.2.2.2.2.1,
    h.2.2.2.1 (.mk "B" (some "b") (some true) [] []) [] rfl rfl]
  rfl

/-- C8: a directory structure node flagged as representing multiple source
roots yields a suite whose name is emptied and whose source is nulled. -/
theorem multi_source_root_anonymized (P : ParserMap) (pd : Option TestDefaults)
    (src init_file ext : Option String) (su : TestSuite) (d : TestDefaults)
    (h : build_suite_directory P pd src init_file ext true = .ok (su, d)) :
    su.name = "" ∧ su.source = none := by
  rw [build_suite_directory] at h
  cases hp : (P ext).parse_init_file (init_or_source init_file src) (TestDefaults.mk pd) with
  | error e => rw [hp] at h; cases h
  | ok su0 =>
    rw [hp] at h
    simp only [Except.ok.injEq, Prod.mk.injEq] at h
    obtain ⟨h1, _⟩ := h
    subst h1
    cases su0
    exact ⟨rfl, rfl⟩

/-- Witness for C8: a multi-source directory root parsed by the demo init
parser is anonymized. -/
theorem multi_source_root_anonymized_witness :
    (TestSuite.mk "" none none ([] : List String) ([] : List TestSuite)).name = "" ∧
    (TestSuite.mk "" none none ([] : List String) ([] : List TestSuite)).source = none :=
  multi_source_root_anonymized demoP none (some "R") none none
    (.mk "" none none [] []) (TestDefaults.mk none) rfl

theorem validate_children_spec (l : List TestSuite) :
    validate_children l =
      (match l.find? (fun c => !has_tests c) with
       | some c => .error ("Suite '" ++ c.name ++ "' contains no tests or tasks.")
       | none => .ok ()) := by
  induction l with
  | nil => rfl
  | cons c rest ih =>
    cases c with
    | mk n src rpa tests suites =>
      by_cases hc : has_tests (.mk n src rpa tests suites) = true
      · simp [validate_children, validate_not_empty, List.find?, hc, ih]
      · simp only [Bool.not_eq_true] at hc
        simp [validate_children, validate_not_empty, List.find?, hc, TestSuite.name]

/-- C6: the non-empty validation is skipped whenever suite-name filters were
given or empty suites are allowed (the build then succeeds regardless of
emptiness); otherwise with multiple source paths each direct child of the
root must contain a test/task (the first empty one is named in the error),
and with a single path the root itself must. -/
theorem empty_validation_spec :
    (∀ (cfg : BuilderConfig) (P : ParserMap) (norm : String → String)
       (path_exists : String → Bool) (paths : List String) (s : SuiteStructure)
       (ps : List String) (suite : TestSuite),
      (cfg.included_suites ≠ [] ∨ cfg.allow_empty_suite = true) →
      normalize_paths norm path_exists paths = .ok ps →
      parse P cfg.rpa s = .ok (some suite) →
      build cfg P norm path_exists paths s =
        .ok (remove_empty_suites (decide (ps.length > 1)) suite)) ∧
    (∀ su : TestSuite, validate_not_empty su true =
      (match su.suites.find? (fun c => !has_tests c) with
       | some c => .error ("Suite '" ++ c.name ++ "' contains no tests or tasks.")
       | none => .ok ())) ∧
    (∀ su : TestSuite, validate_not_empty su false =
      (if has_tests su then .ok ()
       else .error ("Suite '" ++ su.name ++ "' contains no tests or tasks."))) := by
  refine ⟨?_, ?_, ?_⟩
  · intro cfg P norm path_exists paths s ps suite hskip hn hp
    have hcond : (cfg.included_suites.isEmpty && !cfg.allow_empty_suite) = false := by
      rcases hskip with h | h
      · have : cfg.included_suites.isEmpty = false := by
          cases hl : cfg.included_suites with
          | nil => exact absurd hl h
          | cons a l => rfl
        simp [this]
      · simp [h]
    simp [build, hn, hp, hcond]
  · intro su
    cases su
    simp [validate_not_empty, validate_children_spec, TestSuite.suites]
  · intro su
    cases su
    rfl

/-- Witness for C6: with suite filters present an empty-ish tree still
builds; without them the empty direct child `D` is reported with multiple
paths while a single path passes because the root has a test. -/
theorem empty_validation_spec_witness :
    build ⟨["X"], false, none⟩ demoP (fun s => s) (fun _ => true)
      ["p", "q"] demoStructure =
      .ok (remove_empty_suites (decide ((["p", "q"] : List String).length > 1)) demoRoot) ∧
    validate_not_empty demoRoot true = .error "Suite 'D' contains no tests or tasks." ∧
    validate_not_empty demoRoot false = .ok () :=
  ⟨empty_validation_spec.1 ⟨["X"], false, none⟩ demoP (fun s => s) (fun _ => true)
      ["p", "q"] demoStructure ["p", "q"] demoRoot (Or.inl (by decide)) rfl rfl,
    (empty_validation_spec.2.1 demoRoot).trans (by rfl),
    (empty_validation_spec.2.2 demoRoot).trans (by rfl)⟩

theorem any_has_tests_filter (l : List TestSuite) :
    any_has_tests (l.filter has_tests) = any_has_tests l := by
  induction l with
  | nil => rfl
  | cons c rest ih =>
    cases hc : has_tests c <;>
      simp [List.filter, hc, any_has_tests, ih]

mutual
theorem has_tests_remove (b : Bool) (s : TestSuite) :
    has_tests (remove_empty_suites b s) = has_tests s := by
  cases s with
  | mk n src rpa tests suites =>
    cases b <;>
      simp [remove_empty_suites, has_tests, any_has_tests_filter,
        any_has_tests_prune suites]
theorem any_has_tests_prune (l : List TestSuite) :
    any_has_tests (prune_children l) = any_has_tests l := by
  cases l with
  | nil => rfl
  | cons c rest =>
    simp [prune_children, any_has_tests, has_tests_remove false c,
      any_has_tests_prune rest]
end

theorem all_has_tests_filter (l : List TestSuite) :
    (l.filter has_tests).all has_tests = true := by
  induction l with
  | nil => rfl
  | cons c rest ih =>
    cases hc : has_tests c <;> simp [List.filter, hc, ih]

theorem all_pruned_filter (p : TestSuite → Bool) (l : List TestSuite)
    (h : all_pruned l = true) : all_pruned (l.filter p) = true := by
  induction l with
  | nil => rfl
  | cons c rest ih =>
    simp only [all_pruned, Bool.and_eq_true] at h
    cases hc : p c <;> simp [List.filter, hc, all_pruned, h.1, ih h.2]

mutual
theorem is_pruned_remove (b : Bool) (s : TestSuite) :
    is_pruned b (remove_empty_suites b s) = true := by
  cases s with
  | mk n src rpa tests suites =>
    cases b with
    | true =>
      simp [remove_empty_suites, is_pruned, all_pruned_prune suites]
    | false =>
      simp [remove_empty_suites, is_pruned, all_has_tests_filter,
        all_pruned_filter has_tests _ (all_pruned_prune suites)]
theorem all_pruned_prune (l : List TestSuite) :
    all_pruned (prune_children l) = true := by
  cases l with
  | nil => rfl
  | cons c rest =>
    simp [prune_children, all_pruned, is_pruned_remove false c,
      all_pruned_prune rest]
end

theorem normalize_paths_ok_shape (norm : String → String)
    (path_exists : String → Bool) (paths ps : List String)
    (h : normalize_paths norm path_exists paths = .ok ps) :
    ps = paths.map norm := by
  rw [normalize_paths] at h
  split at h
  · cases h
  · dsimp only at h
    split at h
    · injection h with h2
      exact h2.symm
    · cases h

/-- C7 (amended): pruning is applied unconditionally on every build — every
suite tree `build` returns has the pruned shape (no empty direct child
unless several source paths preserved them, and no empty subtree anywhere
below). -/
theorem build_prunes_unconditionally (cfg : BuilderConfig) (P : ParserMap)
    (norm : String → String) (path_exists : String → Bool)
    (paths : List String) (s : SuiteStructure) (t : TestSuite)
    (h : build cfg P norm path_exists paths s = .ok t) :
    is_pruned (decide (paths.length > 1)) t = true := by
  rw [build] at h
  cases hn : normalize_paths norm path_exists paths with
  | error e => rw [hn] at h; cases h
  | ok ps =>
    rw [hn] at h
    cases hp : parse P cfg.rpa s with
    | error e => rw [hp] at h; cases h
    | ok o =>
      rw [hp] at h
      cases o with
      | none => cases h
      | some suite =>
        simp only [] at h
        cases hv : (if cfg.included_suites.isEmpty && !cfg.allow_empty_suite
                    then validate_not_empty suite (decide (ps.length > 1))
                    else .ok ()) with
        | error e => rw [hv] at h; cases h
        | ok u =>
          rw [hv] at h
          cases u
          simp only [Except.ok.injEq] at h
          subst h
          have hl : ps.length = paths.length := by
            rw [normalize_paths_ok_shape norm path_exists paths ps hn,
              List.length_map]
          rw [← hl]
          exact is_pruned_remove (decide (ps.length > 1)) suite

/-- Witness for C7 (amended): a concrete single-path build whose result is
pruned. -/
theorem build_prunes_unconditionally_witness :
    is_pruned (decide ((["p"] : List String).length > 1))
      (.mk "R" (some "R") none [] [ .mk "A" (some "a") none ["t1"] [] ]) = true :=
  build_prunes_unconditionally ⟨[], false, none⟩ demoP (fun s => s)
    (fun _ => true) ["p"] demoStructure
    (.mk "R" (some "R") none [] [ .mk "A" (some "a") none ["t1"] [] ]) rfl
theorem demo_build_step (inc : List String) (ae : Bool) (p : String)
    (ps : List String) (su t : TestSuite)
    (h1 : contains_named "B" (remove_empty_suites false su) = false)
    (h2 : contains_named "B" (remove_empty_suites true su) = false)
    (h3 : validate_not_empty su true = .error "Suite 'D' contains no tests or tasks.")
    (h4 : validate_not_empty su false = .ok ())
    (hmatch : (match (if inc.isEmpty && !ae
                 then validate_not_empty su (decide ((p :: ps).length > 1))
                 else (.ok () : Except String Unit)) with
               | .error e => .error e
               | .ok () => .ok (remove_empty_suites (decide ((p :: ps).length > 1)) su))
              = Except.ok t) :
    contains_named "B" t = false := by
  cases ps with
  | nil =>
    have hm : (decide (([p] : List String).length > 1)) = false := by simp
    rw [hm] at hmatch
    cases hcond : (inc.isEmpty && !ae) <;> rw [hcond] at hmatch
    · simp only [Bool.false_eq_true, if_false] at hmatch
      simp only [Except.ok.injEq] at hmatch
      subst hmatch
      exact h1
    · simp only [if_true, h4] at hmatch
      simp only [Except.ok.injEq] at hmatch
      subst hmatch
      exact h1
  | cons q qs =>
    have hm : (decide ((p :: q :: qs : List String).length > 1)) = true := by
      simp
    rw [hm] at hmatch
    cases hcond : (inc.isEmpty && !ae) <;> rw [hcond] at hmatch
    · simp only [Bool.false_eq_true, if_false] at hmatch
      simp only [Except.ok.injEq] at hmatch
      subst hmatch
      exact h2
    · simp only [if_true, h3] at hmatch
      cases hmatch

theorem demo_build_removes_B (cfg : BuilderConfig) (paths : List String)
    (t : TestSuite)
    (hb : build cfg demoP (fun s => s) (fun _ => true) paths demoStructure = .ok t) :
    contains_named "B" t = false := by
  obtain ⟨inc, ae, rpa⟩ := cfg
  cases paths with
  | nil => simp [build, normalize_paths] at hb
  | cons p ps =>
    have hn : normalize_paths (fun s => s) (fun _ => true) (p :: ps) = .ok (p :: ps) := by
      simp [normalize_paths]
    rw [build, hn] at hb
    cases rpa with
    | none =>
      have hp : parse demoP none demoStructure = .ok (some demoRoot) := rfl
      rw [hp] at hb
      simp only [] at hb
      exact demo_build_step inc ae p ps demoRoot t (by decide) (by decide)
        (by rfl) (by rfl) hb
    | some b =>
      cases b with
      | false =>
        have hp : parse demoP (some false) demoStructure =
            .ok (some (.mk "R" (some "R") (some false) []
              [ .mk "A" (some "a") (some false) ["t1"] [],
                .mk "D" (some "D") (some false) []
                  [ .mk "B" (some "b") (some false) [] [] ] ])) := rfl
        rw [hp] at hb
        simp only [] at hb
        exact demo_build_step inc ae p ps _ t (by decide) (by decide)
          (by rfl) (by rfl) hb
      | true =>
        have hp : parse demoP (some true) demoStructure =
            .ok (some (.mk "R" (some "R") (some true) []
              [ .mk "A" (some "a") (some true) ["t1"] [],
                .mk "D" (some "D") (some true) []
                  [ .mk "B" (some "b") (some true) [] [] ] ])) := rfl
        rw [hp] at hb
        simp only [] at hb
        exact demo_build_step inc ae p ps _ t (by decide) (by decide)
          (by rfl) (by rfl) hb

/-- Counterexample to C7 as stated: for the demo structure, whose
subdirectory `D` contains only the empty file suite `B`, no builder
configuration whatsoever makes `build` return a tree still containing the
empty subtree `B` — pruning is applied on every successful build. -/
theorem pruning_optional_counterexample :
    ¬ ∃ (inc : List String) (ae : Bool) (rpa : Option Bool)
        (paths : List String) (t : TestSuite),
      build ⟨inc, ae, rpa⟩ demoP (fun s => s) (fun _ => true)
        paths demoStructure = .ok t ∧
      contains_named "B" t = true := by
  rintro ⟨inc, ae, rpa, paths, t, hb, hc⟩
  rw [demo_build_removes_B ⟨inc, ae, rpa⟩ paths t hb] at hc
  cases hc

theorem reg_update_spec (d : String → Option CustomParser) (ks : List String)
    (v : CustomParser) (x : String) :
    reg_update d ks v x = if x ∈ ks then some v else d x := by
  induction ks generalizing d with
  | nil => simp [reg_update]
  | cons k ks ih =>
    rw [reg_update, ih]
    by_cases hx : x ∈ ks
    · simp [hx, List.mem_cons]
    · by_cases hk : x = k <;> simp [hx, hk, List.mem_cons]

theorem get_from_spec (objs : List ParserObj) (acc : String → Option CustomParser)
    (reg : String → Option CustomParser) (ext : String)
    (h : get_custom_parsers_from objs acc = .ok reg) :
    reg ext = (match last_claiming ext objs with
               | some q => some ⟨q⟩
               | none => acc ext) := by
  induction objs generalizing acc with
  | nil =>
    rw [get_custom_parsers_from] at h
    injection h with h
    subst h
    rfl
  | cons p rest ih =>
    rw [get_custom_parsers_from] at h
    cases hv : custom_parser_init p with
    | error e => rw [hv] at h; cases h
    | ok cp =>
      rw [hv] at h
      have hcp : cp = ⟨p⟩ := by
        rw [custom_parser_init] at hv
        split at hv
        · injection hv with hv
          exact hv.symm
        · cases hv
      subst hcp
      rw [ih (reg_update acc p.extensions ⟨p⟩) h, reg_update_spec]
      cases hlc : last_claiming ext rest with
      | some q => simp [last_claiming, hlc]
      | none =>
        by_cases hm : ext ∈ p.extensions <;> simp [last_claiming, hlc, hm]

theorem get_from_invalid (pre : List ParserObj) (p : ParserObj)
    (rest : List ParserObj) (acc : String → Option CustomParser)
    (hpre : ∀ q ∈ pre, q.valid = true) (hp : p.valid = false) :
    get_custom_parsers_from (pre ++ p :: rest) acc =
      .error ("Importing parser '" ++ p.name ++ "' failed: " ++
        ("'" ++ p.name ++ "' does not have mandatory 'parse' method.")) := by
  induction pre generalizing acc with
  | nil =>
    simp only [List.nil_append]
    rw [get_custom_parsers_from, custom_parser_init]
    simp [hp]
  | cons q pre ih =>
    have hq : q.valid = true := hpre q (List.mem_cons_self q pre)
    simp only [List.cons_append]
    rw [get_custom_parsers_from, custom_parser_init]
    simp only [hq, if_true]
    exact ih _ (fun r hr => hpre r (List.mem_cons_of_mem _ hr))

/-- C9: registering custom parsers maps every claimed extension to the last
parser in the sequence claiming it (later registration shadows earlier),
and a supplied parser object that does not satisfy the capability shape
fails the whole registration with a data error naming the parser. -/
theorem custom_parser_registration :
    (∀ (objs : List ParserObj) (reg : String → Option CustomParser) (ext : String),
      get_custom_parsers objs = .ok reg →
      reg ext = (last_claiming ext objs).map (fun q => ⟨q⟩)) ∧
    (∀ (pre : List ParserObj) (p : ParserObj) (rest : List ParserObj),
      (∀ q ∈ pre, q.valid = true) → p.valid = false →
      get_custom_parsers (pre ++ p :: rest) =
        .error ("Importing parser '" ++ p.name ++ "' failed: " ++
          ("'" ++ p.name ++ "' does not have mandatory 'parse' method."))) := by
  constructor
  · intro objs reg ext h
    rw [get_from_spec objs (fun _ => none) reg ext h]
    cases last_claiming ext objs <;> rfl
  · intro pre p rest hpre hp
    exact get_from_invalid pre p rest (fun _ => none) hpre hp

/-- Witness for C9: two parsers both claiming `xyz` register the later one,
and an invalid object aborts registration with the naming error. -/
theorem custom_parser_registration_witness :
    demoRegistry "xyz" = some ⟨demoP2⟩ ∧
    get_custom_parsers [demoP1, demoBad] =
      .error ("Importing parser 'SomeClass' failed: " ++
        "'SomeClass' does not have mandatory 'parse' method.") :=
  ⟨(custom_parser_registration.1 [demoP1, demoP2] demoRegistry "xyz" rfl).trans
      (by rfl),
    (custom_parser_registration.2 [demoP1] demoBad [] (by decide) rfl).trans
      (by rfl)⟩

theorem opt_or_none (a : Option Bool) : opt_or a none = a := by
  cases a <;> rfl

theorem opt_or_assoc (a b c : Option Bool) :
    opt_or (opt_or a b) c = opt_or a (opt_or b c) := by
  cases a <;> rfl

theorem parentDefaults_congr (st1 st2 : ParserState)
    (h : st1.stack.map Prod.snd = st2.stack.map Prod.snd) :
    parentDefaults st1 = parentDefaults st2 := by
  rw [parentDefaults, parentDefaults, ← List.head?_map, ← List.head?_map, h]

theorem validate_rpa_shape (rpa : Option Bool) (g : Bool) (su : TestSuite)
    (rpa2 : Option Bool) (su2 : TestSuite)
    (h : validate_execution_mode rpa g su = .ok (rpa2, su2)) :
    rpa2 = (if g then rpa else opt_or rpa su.rpa) := by
  cases su with
  | mk n src0 rp t ss =>
    rcases g with _ | _ <;> rcases rp with _ | (_ | _) <;> rcases rpa with _ | (_ | _) <;>
      simp_all [validate_execution_mode, TestSuite.rpa, TestSuite.setRpa, opt_or]

theorem build_suite_file_shape (P : ParserMap) (pd : Option TestDefaults)
    (src : String) (ext : Option String) (rpa : Option Bool) (g : Bool)
    (su : TestSuite) (rpa2 : Option Bool)
    (h : build_suite_file P pd src ext rpa g = .ok (su, rpa2)) :
    ∃ su0, (P ext).parse_suite_file src (pd.getD (TestDefaults.mk none)) = .ok su0 ∧
      rpa2 = (if g then rpa else opt_or rpa su0.rpa) := by
  rw [build_suite_file] at h
  try dsimp only at h
  split at h
  · cases h
  · rename_i su0 hp
    split at h
    · cases h
    · rename_i rpa3 su3 hv
      injection h with h
      injection h with h1 h2
      refine ⟨su0, hp, ?_⟩
      rw [← h2]
      exact validate_rpa_shape rpa g su0 rpa3 su3 hv

theorem build_dir_defaults (P : ParserMap) (pd : Option TestDefaults)
    (src init_file ext : Option String) (multi : Bool) (su : TestSuite)
    (d : TestDefaults)
    (h : build_suite_directory P pd src init_file ext multi = .ok (su, d)) :
    d = TestDefaults.mk pd := by
  rw [build_suite_directory] at h
  cases hp : (P ext).parse_init_file (init_or_source init_file src)
      (TestDefaults.mk pd) with
  | error e => rw [hp] at h; cases h
  | ok su0 =>
    rw [hp] at h
    injection h with h
    injection h with h1 h2
    exact h2.symm

theorem visit_file_shape (P : ParserMap) (src : String) (ext : Option String)
    (st st' : ParserState) (h : visit_file P src ext st = .ok st') :
    st'.rpa_given = st.rpa_given ∧
    st'.stack.map Prod.snd = st.stack.map Prod.snd ∧
    st'.rpa = (if st.rpa_given then st.rpa
               else opt_or st.rpa (first_declared_mode P (parentDefaults st)
                 (.file src ext))) := by
  rw [visit_file] at h
  cases hb : build_suite_file P (parentDefaults st) src ext st.rpa st.rpa_given with
  | error e => rw [hb] at h; cases h
  | ok pr =>
    obtain ⟨su, rpa2⟩ := pr
    rw [hb] at h
    obtain ⟨su0, hp, hr⟩ :=
      build_suite_file_shape P (parentDefaults st) src ext st.rpa st.rpa_given
        su rpa2 hb
    have hfdm : first_declared_mode P (parentDefaults st) (.file src ext) = su0.rpa := by
      rw [first_declared_mode, hp]
    cases hstk : st.stack with
    | nil =>
      rw [hstk] at h
      injection h with h
      subst h
      exact ⟨rfl, rfl, by rw [hr, hfdm]⟩
    | cons top rest =>
      obtain ⟨t0, d0⟩ := top
      rw [hstk] at h
      injection h with h
      subst h
      exact ⟨rfl, by simp [hstk], by rw [hr, hfdm]⟩

theorem start_directory_shape (P : ParserMap) (src init_file ext : Option String)
    (multi : Bool) (st st1 : ParserState)
    (h : start_directory P src init_file ext multi st = .ok st1) :
    st1.rpa = st.rpa ∧ st1.rpa_given = st.rpa_given ∧ st1.suite = st.suite ∧
    ∃ su, st1.stack = (su, TestDefaults.mk (parentDefaults st)) :: st.stack := by
  rw [start_directory] at h
  cases hd : build_suite_directory P (parentDefaults st) src init_file ext multi with
  | error e => rw [hd] at h; cases h
  | ok pr =>
    obtain ⟨su, d⟩ := pr
    rw [hd] at h
    injection h with h
    subst h
    have := build_dir_defaults P (parentDefaults st) src init_file ext multi su d hd
    subst this
    exact ⟨rfl, rfl, rfl, su, rfl⟩

theorem end_directory_shape (st : ParserState) (d : TestDefaults)
    (ds : List TestDefaults) (h : st.stack.map Prod.snd = d :: ds) :
    (end_directory st).rpa = st.rpa ∧
    (end_directory st).rpa_given = st.rpa_given ∧
    (end_directory st).stack.map Prod.snd = ds := by
  cases hstk : st.stack with
  | nil => rw [hstk] at h; cases h
  | cons top rest =>
    obtain ⟨su, d2⟩ := top
    rw [hstk] at h
    simp only [List.map_cons, List.cons.injEq] at h
    cases rest with
    | nil =>
      refine ⟨by simp [end_directory, hstk], by simp [end_directory, hstk], ?_⟩
      simp only [end_directory, hstk]
      simp only [List.map_nil] at h
      simp [← h.2]
    | cons top2 rest2 =>
      obtain ⟨t, dd⟩ := top2
      refine ⟨by simp [end_directory, hstk], by simp [end_directory, hstk], ?_⟩
      simp only [end_directory, hstk]
      simp only [List.map_cons] at h
      simp [← h.2]

mutual
theorem visitStructure_shape (P : ParserMap) (s : SuiteStructure)
    (st st' : ParserState) (h : visitStructure P s st = .ok st') :
    st'.rpa_given = st.rpa_given ∧
    st'.stack.map Prod.snd = st.stack.map Prod.snd ∧
    st'.rpa = (if st.rpa_given then st.rpa
               else opt_or st.rpa (first_declared_mode P (parentDefaults st) s)) := by
  cases s with
  | file src ext =>
    rw [visitStructure] at h
    exact visit_file_shape P src ext st st' h
  | dir src init_file ext multi children =>
    rw [visitStructure] at h
    split at h
    · cases h
    · rename_i st1 hs
      split at h
      · cases h
      · rename_i st2 hl
        injection h with h
        subst h
        obtain ⟨hr1, hg1, _, su, hstk1⟩ :=
          start_directory_shape P src init_file ext multi st st1 hs
        obtain ⟨hg2, hmap2, hrpa2⟩ := visitList_shape P children st1 st2 hl
        have hpd1 : parentDefaults st1 = some (TestDefaults.mk (parentDefaults st)) := by
          rw [parentDefaults, hstk1]
          rfl
        have hmap1 : st1.stack.map Prod.snd =
            TestDefaults.mk (parentDefaults st) :: st.stack.map Prod.snd := by
          rw [hstk1]
          rfl
        have hmap2' : st2.stack.map Prod.snd =
            TestDefaults.mk (parentDefaults st) :: st.stack.map Prod.snd := by
          rw [hmap2, hmap1]
        obtain ⟨he1, he2, he3⟩ :=
          end_directory_shape st2 (TestDefaults.mk (parentDefaults st))
            (st.stack.map Prod.snd) hmap2'
        refine ⟨he2.trans (hg2.trans hg1), he3, ?_⟩
        rw [he1, hrpa2, hg1, hr1, hpd1]
        rw [first_declared_mode]
theorem visitList_shape (P : ParserMap) (l : List SuiteStructure)
    (st st' : ParserState) (h : visitList P l st = .ok st') :
    st'.rpa_given = st.rpa_given ∧
    st'.stack.map Prod.snd = st.stack.map Prod.snd ∧
    st'.rpa = (if st.rpa_given then st.rpa
               else opt_or st.rpa (first_declared_modes P (parentDefaults st) l)) := by
  cases l with
  | nil =>
    rw [visitList] at h
    injection h with h
    subst h
    refine ⟨rfl, rfl, ?_⟩
    cases hg : st.rpa_given <;>
      simp [hg, first_declared_modes, opt_or_none]
  | cons c rest =>
    rw [visitList] at h
    cases hc : visitStructure P c st with
    | error e => rw [hc] at h; cases h
    | ok st1 =>
      rw [hc] at h
      obtain ⟨hg1, hmap1, hrpa1⟩ := visitStructure_shape P c st st1 hc
      obtain ⟨hg2, hmap2, hrpa2⟩ := visitList_shape P rest st1 st' h
      have hpd : parentDefaults st1 = parentDefaults st :=
        parentDefaults_congr st1 st hmap1
      refine ⟨hg2.trans hg1, hmap2.trans hmap1, ?_⟩
      rw [hrpa2, hg1, hpd, hrpa1]
      cases hg : st.rpa_given with
      | true => simp [hg]
      | false =>
        simp only [Bool.false_eq_true, if_false]
        rw [opt_or_assoc]
        rfl
end

theorem parse_root_rpa_spec (P : ParserMap) (s : SuiteStructure)
    (rpa0 : Option Bool) (r : TestSuite) (h : parse P rpa0 s = .ok (some r)) :
    r.rpa = (match rpa0 with
             | some b => some b
             | none => first_declared_mode P none s) := by
  rw [parse] at h
  split at h
  · cases h
  · rename_i st hv
    injection h with h
    cases hsu : st.suite with
    | none => rw [hsu] at h; cases h
    | some root =>
      rw [hsu] at h
      injection h with h
      subst h
      rw [setRpa_rpa]
      obtain ⟨hg, hmap, hrpa⟩ := visitStructure_shape P s (initState rpa0) st hv
      cases rpa0 with
      | none =>
        simp only [initState, Option.isSome_none, Bool.false_eq_true,
          if_false] at hrpa
        exact hrpa
      | some b =>
        simp only [initState, Option.isSome_some, if_true] at hrpa
        exact hrpa

/-- C2: with a caller-supplied execution-mode override, every parsed file
suite's mode is overwritten with the forced value unconditionally and no
conflict error is raised by the reconciler, and the root suite of every
successful parse carries the override. -/
theorem override_mode_wins :
    (∀ (rpa : Option Bool) (su : TestSuite),
      validate_execution_mode rpa true su = .ok (rpa, su.setRpa rpa)) ∧
    (∀ (P : ParserMap) (s : SuiteStructure) (b : Bool) (r : TestSuite),
      parse P (some b) s = .ok (some r) → r.rpa = some b) := by
  constructor
  · intro rpa su
    rfl
  · intro P s b r h
    exact parse_root_rpa_spec P s (some b) r h

/-- Witness for C2: a file declaring tasks mode is overwritten by the forced
tests mode without any error, and the parsed root carries the override. -/
theorem override_mode_wins_witness :
    validate_execution_mode (some false) true
      (.mk "B" (some "b") (some true) ["t2"] []) =
      .ok (some false,
        (TestSuite.mk "B" (some "b") (some true) ["t2"] []).setRpa (some false)) ∧
    (TestSuite.mk "B" (some "b") (some false) ["t2"] []).rpa = some false :=
  ⟨override_mode_wins.1 (some false) (.mk "B" (some "b") (some true) ["t2"] []),
    override_mode_wins.2 conflictP (.file "b" none) false
      (.mk "B" (some "b") (some false) ["t2"] []) rfl⟩

/-- C10: after the traversal, `parse` assigns the reconciler's aggregate
mode to the root suite even with no override: the root's mode equals the
caller's override if given, else the first file-declared mode in traversal
order, else unset — overwriting whatever mode the root itself carried. -/
theorem parse_assigns_aggregate_mode (P : ParserMap) (s : SuiteStructure)
    (rpa0 : Option Bool) (r : TestSuite) (h : parse P rpa0 s = .ok (some r)) :
    r.rpa = (match rpa0 with
             | some b => some b
             | none => first_declared_mode P none s) :=
  parse_root_rpa_spec P s rpa0 r h

/-- Witness for C10: with no override, the root of a one-file parse adopts
the file's declared tasks mode. -/
theorem parse_assigns_aggregate_mode_witness :
    (TestSuite.mk "B" (some "b") (some true) ["t2"] []).rpa = some true :=
  parse_assigns_aggregate_mode conflictP (.file "b" none) none
    (.mk "B" (some "b") (some true) ["t2"] []) rfl

end Builders
